import Mathlib

/-!
Shallow embedding of the go-errors-node library: the Go-style Result tuple
algebra (`src/types/result.types.ts`, `src/core/result.ts`), the structured
error taxonomy (`src/core/errors.ts`), the Pino-backed error logger's severity
choice (`src/utils/logger.ts`), the NestJS exception filter
(`src/nestjs/exception-filter.ts`) and the result interceptor
(`src/nestjs/result-interceptor.ts`).

A TypeScript value of a nullable type is modelled as `Option α` with `none`
standing for JavaScript `null`.  A Result tuple `[T | null, E | null]` is the
pair `Option α × Option ε`.
-/

namespace Nogode

/-! ## Result tuples (`result.types.ts`, `core/result.ts`) -/

/-- `Result<T, E>`: the two-slot tuple `[data, error]`. -/
abbrev Result (α ε : Type) : Type := Option α × Option ε

/-- `Ok(data)` returns `[data, null]`. The data slot may itself hold `null`. -/
def Ok {α ε : Type} (data : Option α) : Result α ε := (data, none)

/-- `Err(error)` returns `[null, error]`. -/
def Err {α ε : Type} (error : Option ε) : Result α ε := (none, error)

/-- `hasError(result)`: `result[1] !== null`. -/
def hasError {α ε : Type} (r : Result α ε) : Bool := r.2.isSome

/-- `isSuccess(result)`: `result[0] !== null && result[1] === null`. -/
def isSuccess {α ε : Type} (r : Result α ε) : Bool := r.1.isSome && r.2.isNone

/-- The loop body of `combine`: walk the list, return `[null, error]` at the
first element whose error slot is non-null, otherwise push the data slot. -/
def combineGo {α ε : Type} : List (Result α ε) → List (Option α) → Result (List (Option α)) ε
  | [], acc => Ok (some acc)
  | (_, some e) :: _, _ => (none, some e)
  | (d, none) :: rest, acc => combineGo rest (acc ++ [d])

/-- `combine(results)`: first failure wins, otherwise `Ok` of the collected
data slots in input order. -/
def combine {α ε : Type} (rs : List (Result α ε)) : Result (List (Option α)) ε :=
  combineGo rs []

/-! ## Error taxonomy (`core/errors.ts`, `types/result.types.ts`) -/

/-- The `ErrorContext` interface: all fields optional. Metadata values are
modelled as strings; timestamps as naturals. -/
structure ErrorContext where
  code : Option String
  statusCode : Option Nat
  metadata : Option (List (String × String))
  stack : Option String
  timestamp : Option Nat
  operation : Option String
deriving Repr, DecidableEq

/-- The empty object `{}` used when a spread receives no context. -/
def emptyCtx : ErrorContext := ⟨none, none, none, none, none, none⟩

/-- Body of an `HttpException.getResponse()` object: `message` and `error`
fields, each possibly absent. -/
structure HttpRespObj where
  message : Option String
  error : Option String
deriving Repr, DecidableEq

/-- `HttpException.getResponse()` is either a string or an object. -/
inductive HttpResp where
  | str (s : String)
  | obj (o : HttpRespObj)
deriving Repr, DecidableEq

/-- The universe of raised errors the library meets: plain `Error`s, NestJS
`HttpException`s, and `AppError` instances (whose `context` property is always
assigned by the constructor). -/
inductive JsErr where
  | plain (name message stack : String)
  | httpExc (status : Nat) (resp : HttpResp) (message stack : String)
  | appError (name message : String) (context : ErrorContext)
      (originalError : Option JsErr) (isOperational : Bool) (stack : String)

/-- `error.message`. -/
def JsErr.message : JsErr → String
  | .plain _ m _ => m
  | .httpExc _ _ m _ => m
  | .appError _ m _ _ _ _ => m

/-- `error.stack` (V8 always materialises it on `Error` instances). -/
def JsErr.stackOf : JsErr → String
  | .plain _ _ s => s
  | .httpExc _ _ _ s => s
  | .appError _ _ _ _ _ s => s

/-- The value of the `isOperational` property, `none` when the key is absent
(plain errors and `HttpException`s do not declare it). -/
def JsErr.isOperationalField : JsErr → Option Bool
  | .appError _ _ _ _ b _ => some b
  | _ => none

/-- `'context' in error`: only `AppError` instances carry the key. -/
def JsErr.hasContextKey : JsErr → Bool
  | .appError _ _ _ _ _ _ => true
  | _ => false

/-- `exception instanceof AppError`. -/
def JsErr.isAppError : JsErr → Bool
  | .appError _ _ _ _ _ _ => true
  | _ => false

/-- The `AppError` base constructor: stores the message, spreads the given
context and stamps `timestamp: new Date()`, keeps the original error, and
records the recoverability flag. -/
def mkAppError (name message : String) (ctx? : Option ErrorContext)
    (orig : Option JsErr) (isOperational : Bool) (now : Nat) (stack : String) : JsErr :=
  .appError name message { (ctx?.getD emptyCtx) with timestamp := some now }
    orig isOperational stack

/-- The shared shape of the concrete subclasses: each spreads the caller's
context and then pins its `code`/`statusCode` pair before delegating to the
base constructor. -/
def mkKind (name code : String) (statusCode : Nat) (isOperational : Bool)
    (message : String) (ctx? : Option ErrorContext) (orig : Option JsErr)
    (now : Nat) (stack : String) : JsErr :=
  mkAppError name message
    (some { (ctx?.getD emptyCtx) with code := some code, statusCode := some statusCode })
    orig isOperational now stack

def mkValidationError (message : String) (ctx? : Option ErrorContext)
    (orig : Option JsErr) (now : Nat) (stack : String) : JsErr :=
  mkKind "ValidationError" "VALIDATION_ERROR" 400 true message ctx? orig now stack

def mkNotFoundError (message : String) (ctx? : Option ErrorContext)
    (orig : Option JsErr) (now : Nat) (stack : String) : JsErr :=
  mkKind "NotFoundError" "NOT_FOUND" 404 true message ctx? orig now stack

def mkUnauthorizedError (message : String) (ctx? : Option ErrorContext)
    (orig : Option JsErr) (now : Nat) (stack : String) : JsErr :=
  mkKind "UnauthorizedError" "UNAUTHORIZED" 401 true message ctx? orig now stack

def mkForbiddenError (message : String) (ctx? : Option ErrorContext)
    (orig : Option JsErr) (now : Nat) (stack : String) : JsErr :=
  mkKind "ForbiddenError" "FORBIDDEN" 403 true message ctx? orig now stack

def mkConflictError (message : String) (ctx? : Option ErrorContext)
    (orig : Option JsErr) (now : Nat) (stack : String) : JsErr :=
  mkKind "ConflictError" "CONFLICT" 409 true message ctx? orig now stack

def mkInternalError (message : String) (ctx? : Option ErrorContext)
    (orig : Option JsErr) (now : Nat) (stack : String) : JsErr :=
  mkKind "InternalError" "INTERNAL_ERROR" 500 false message ctx? orig now stack

def mkExternalServiceError (message : String) (ctx? : Option ErrorContext)
    (orig : Option JsErr) (now : Nat) (stack : String) : JsErr :=
  mkKind "ExternalServiceError" "EXTERNAL_SERVICE_ERROR" 502 true message ctx? orig now stack

def mkTimeoutError (message : String) (ctx? : Option ErrorContext)
    (orig : Option JsErr) (now : Nat) (stack : String) : JsErr :=
  mkKind "TimeoutError" "TIMEOUT" 408 true message ctx? orig now stack

/-- The context stored on an `appError`; `emptyCtx` is never consulted because
every constructor path produces an `appError`. -/
def JsErr.contextOf : JsErr → ErrorContext
  | .appError _ _ c _ _ _ => c
  | _ => emptyCtx

/-- `enhanceError(error, context?)`: if `'context' in error`, return it
unchanged, else promote it with `new AppError(error.message, context, error)`. -/
def enhanceError (e : JsErr) (ctx? : Option ErrorContext) (now : Nat)
    (stack : String) : JsErr :=
  if e.hasContextKey then e
  else mkAppError "AppError" e.message ctx? (some e) true now stack

/-- `isOperationalError(error)`: true only when the key is present and the
value is exactly `true`. -/
def isOperationalError (e : JsErr) : Bool :=
  match e.isOperationalField with
  | some b => b
  | none => false

/-! ## Logger severity (`utils/logger.ts`, `ErrorLogger.logError`) -/

/-- The two severities `logError` chooses between: `fatal` for
"Programming Error", `errorLevel` for "Operational Error". -/
inductive LogSeverity where
  | fatal
  | errorLevel
deriving Repr, DecidableEq

/-- `logError` flags fatal exactly when `isOperational === false`. -/
def logErrorSeverity (e : JsErr) : LogSeverity :=
  if e.isOperationalField = some false then .fatal else .errorLevel

/-! ## Inbound adapter (`nestjs/exception-filter.ts`, `GoStyleExceptionFilter.catch`) -/

/-- JavaScript `s2 || s1` on optional strings: the empty string is falsy. -/
def orFalsyStr (v : Option String) (d : String) : String :=
  match v with
  | some s => if s = "" then d else s
  | none => d

/-- JavaScript `n2 || n1` on optional numbers: `0` is falsy. -/
def orFalsyNat (v : Option Nat) (d : Nat) : Nat :=
  match v with
  | some n => if n = 0 then d else n
  | none => d

/-- The status/message/code/context state after the two classification `if`s
in `GoStyleExceptionFilter.catch`. -/
structure Classified where
  status : Nat
  message : String
  code : String
  metadata : List (String × String)
deriving Repr, DecidableEq

/-- The classification step: defaults 500 / "Internal server error" /
"INTERNAL_ERROR" / `{}`, overridden by an `HttpException`'s status and
response, or by an `AppError`'s context and message. -/
def classify (exc : JsErr) : Classified :=
  match exc with
  | .httpExc status resp _ _ =>
    match resp with
    | .str s => ⟨status, s, "INTERNAL_ERROR", []⟩
    | .obj o => ⟨status, orFalsyStr o.message "Internal server error",
        orFalsyStr o.error "INTERNAL_ERROR", []⟩
  | .appError _ message ctx _ _ _ =>
    ⟨orFalsyNat ctx.statusCode 500, message, orFalsyStr ctx.code "INTERNAL_ERROR",
      ctx.metadata.getD []⟩
  | .plain _ _ _ => ⟨500, "Internal server error", "INTERNAL_ERROR", []⟩

/-- The filter's call to `logger.logError(exception, {...})`: the severity the
logger picks, plus the extra fields the filter passes. -/
structure LogEntry where
  severity : LogSeverity
  path : String
  method : String
  statusCode : Nat
  isUnexpected : Bool
deriving Repr, DecidableEq

/-- The `error` object of the canonical failure envelope. `context` is spread
in only when the metadata object has keys; `stack` only outside production. -/
structure ErrorBody where
  code : String
  message : String
  statusCode : Nat
  timestamp : String
  path : String
  context : Option (List (String × String))
  stack : Option String
deriving Repr, DecidableEq

/-- Everything `catch` does when it completes: the log call it made, and the
transport status and failure envelope it sent. -/
structure FilterOutput where
  log : LogEntry
  status : Nat
  body : ErrorBody
deriving Repr, DecidableEq

/-- `GoStyleExceptionFilter.catch`, with the logging collaborator's behaviour
as a parameter: the logging call is not guarded, so when the logger raises
(`loggerThrows`) the raise escapes `catch` before `response.status(...).json(...)`
runs and no response is produced. -/
def filterCatch (exc : JsErr) (url method : String)
    (production loggerThrows : Bool) (now : String) : Except Unit FilterOutput :=
  let c := classify exc
  let entry : LogEntry := ⟨logErrorSeverity exc, url, method, c.status, !exc.isAppError⟩
  if loggerThrows then .error ()
  else .ok ⟨entry, c.status,
    ⟨c.code, c.message, c.status, now, url,
      if c.metadata.isEmpty then none else some c.metadata,
      if production then none else some exc.stackOf⟩⟩

/-! ## Outbound adapter (`nestjs/result-interceptor.ts`, `ResultInterceptor.intercept`) -/

/-- Untyped JavaScript values as the interceptor sees them. -/
inductive JSVal where
  | nullv
  | undef
  | boolv (b : Bool)
  | numv (n : Int)
  | strv (s : String)
  | arrv (xs : List JSVal)
  | objv (fields : List (String × JSVal))

/-- JavaScript truthiness. -/
def truthy : JSVal → Bool
  | .nullv => false
  | .undef => false
  | .boolv b => b
  | .numv n => n != 0
  | .strv s => s != ""
  | .arrv _ => true
  | .objv _ => true

/-- `typeof v === 'object'` (true for `null`, arrays and objects). -/
def typeofIsObject : JSVal → Bool
  | .nullv => true
  | .arrv _ => true
  | .objv _ => true
  | _ => false

/-- `'success' in v` for the values that reach the check. -/
def hasSuccessKey : JSVal → Bool
  | .objv fields => fields.any (fun f => f.1 == "success")
  | _ => false

/-- `v === null` (strict: `undefined !== null`). -/
def isNull : JSVal → Bool
  | .nullv => true
  | _ => false

/-- The canonical success envelope `{success: true, data, timestamp}`. -/
def successEnvelope (data : JSVal) (now : String) : JSVal :=
  .objv [("success", .boolv true), ("data", data), ("timestamp", .strv now)]

/-- `ResultInterceptor.intercept`'s `map` body: pass formatted responses
through, destructure two-element arrays as Result tuples (throwing a non-null
error slot), and wrap everything else as raw data. -/
def intercept (result : JSVal) (now : String) : Except JSVal JSVal :=
  if truthy result && typeofIsObject result && hasSuccessKey result then
    .ok result
  else
    match result with
    | .arrv [d, e] => if isNull e then .ok (successEnvelope d now) else .error e
    | _ => .ok (successEnvelope result now)

/-! ## Theorems -/

/-- C1 counterexample: at the value `x = null`, `isSuccess(Ok(null))` is
`false` (the claim says it is true for every `x`), and `hasError(Ok(null))` is
also `false`, so `Ok(null)` is classified as neither half — the two predicates
are not jointly exhaustive on the tuple representation. -/
theorem C1_null_payload_counterexample :
    isSuccess (Ok (none : Option Nat) : Result Nat Nat) = false ∧
    hasError (Ok (none : Option Nat) : Result Nat Nat) = false := by
  decide

/-- C1 (amended): for every non-null value `x`, `isSuccess(Ok(x))` holds and
`hasError(Ok(x))` fails; for every non-null error `e`, `hasError(Err(e))`
holds and `isSuccess(Err(e))` fails; the two predicates are mutually
exclusive on every tuple, but not jointly exhaustive (see the
counterexample `Ok(null)`). -/
theorem C1_success_failure_predicates {α ε : Type} (x : α) (e : ε) (r : Result α ε) :
    isSuccess (Ok (some x) : Result α ε) = true ∧
    hasError (Ok (some x) : Result α ε) = false ∧
    hasError (Err (some e) : Result α ε) = true ∧
    isSuccess (Err (some e) : Result α ε) = false ∧
    ¬(isSuccess r = true ∧ hasError r = true) := by
  refine ⟨rfl, rfl, rfl, rfl, ?_⟩
  rintro ⟨hs, he⟩
  obtain ⟨r1, r2⟩ := r
  cases r2 <;> simp_all [isSuccess, hasError]

/-- `combineGo` over a list with no error slot set collects the data slots in
order after the accumulator. -/
theorem combineGo_all_ok {α ε : Type} (rs : List (Result α ε)) (acc : List (Option α))
    (h : ∀ r ∈ rs, r.2 = none) :
    combineGo rs acc = Ok (some (acc ++ rs.map Prod.fst)) := by
  induction rs generalizing acc with
  | nil => simp [combineGo, Ok]
  | cons r rest ih =>
    obtain ⟨d, e⟩ := r
    have he : e = none := h (d, e) (List.mem_cons_self _ _)
    subst he
    rw [combineGo, ih _ (fun r hr => h r (List.mem_cons_of_mem _ hr))]
    simp

/-- `combineGo` stops at the first element whose error slot is set and
returns `[null, that error]`. -/
theorem combineGo_first_err {α ε : Type} (rs : List (Result α ε)) (acc : List (Option α))
    (r₀ : Result α ε) (h : rs.find? (fun r => r.2.isSome) = some r₀) :
    combineGo rs acc = (none, r₀.2) := by
  induction rs generalizing acc with
  | nil => simp [List.find?] at h
  | cons r rest ih =>
    obtain ⟨d, e⟩ := r
    cases e with
    | some e0 =>
      simp [List.find?] at h
      subst h
      rfl
    | none =>
      simp [List.find?] at h
      exact ih _ h

/-- C6: `combine([])` is `Ok([])`; when every element's error slot is null,
`combine` returns `Ok` of the data slots in input order; when some element
has a non-null error slot, `combine` returns `[null, e]` for the first such
error `e` in a left-to-right scan; and the output has a null error slot
exactly when every input does. -/
theorem C6_combine_first_failure_wins {α ε : Type} (rs : List (Result α ε)) :
    combine ([] : List (Result α ε)) = Ok (some []) ∧
    ((∀ r ∈ rs, r.2 = none) → combine rs = Ok (some (rs.map Prod.fst))) ∧
    (∀ r₀, rs.find? (fun r => r.2.isSome) = some r₀ → combine rs = (none, r₀.2)) ∧
    (hasError (combine rs) = false ↔ ∀ r ∈ rs, r.2 = none) := by
  refine ⟨rfl, ?_, ?_, ?_, ?_⟩
  · intro h
    simpa using combineGo_all_ok rs [] h
  · intro r₀ h
    exact combineGo_first_err rs [] r₀ h
  · intro hne r hr
    by_contra hsome
    have hex : ∃ x ∈ rs, (fun (r : Result α ε) => r.2.isSome) x = true := by
      refine ⟨r, hr, ?_⟩
      cases hv : r.2 with
      | none => exact absurd hv hsome
      | some e => simp [hv]
    obtain ⟨r₀, hfind⟩ := Option.isSome_iff_exists.mp (List.find?_isSome.mpr hex)
    have hc := combineGo_first_err rs [] r₀ hfind
    have hp := List.find?_some hfind
    simp only [combine] at hne
    rw [hc] at hne
    simp [hasError] at hne
    rw [hne] at hp
    simp at hp
  · intro h
    have hc := combineGo_all_ok rs [] h
    simp only [combine]
    rw [hc]
    rfl

/-- C6 witness: the spec's own examples — a failure in second position wins
over surrounding successes, and an all-success list collects the values in
order. -/
theorem C6_combine_witness :
    combine [Ok (some 1), (Err (some 7) : Result Nat Nat), Ok (some 2)] = (none, some 7) ∧
    combine ([Ok (some 1), Ok (some 2)] : List (Result Nat Nat)) = Ok (some [some 1, some 2]) :=
  ⟨(C6_combine_first_failure_wins [Ok (some 1), Err (some 7), Ok (some 2)]).2.2.1
      (Err (some 7)) rfl,
   (C6_combine_first_failure_wins ([Ok (some 1), Ok (some 2)] : List (Result Nat Nat))).2.1
      (by decide)⟩

/-- C8: `enhanceError` returns an error that already carries the `context`
key unchanged, promotes an error without it to an `AppError` wrapping the
original, and is idempotent — a second application (with any arguments)
returns the first application's result unchanged. -/
theorem C8_enhanceError_idempotent (e : JsErr) (ctx? ctx?' : Option ErrorContext)
    (now now' : Nat) (stack stack' : String) :
    (e.hasContextKey = true → enhanceError e ctx? now stack = e) ∧
    (e.hasContextKey = false →
      enhanceError e ctx? now stack
        = mkAppError "AppError" e.message ctx? (some e) true now stack) ∧
    enhanceError (enhanceError e ctx? now stack) ctx?' now' stack'
      = enhanceError e ctx? now stack := by
  cases e <;> simp [enhanceError, JsErr.hasContextKey, mkAppError]

/-- C8 witness: a plain `Error` is promoted to an `AppError` wrapping it, and
an error already carrying context (a `ValidationError`) comes back unchanged. -/
theorem C8_enhanceError_witness :
    enhanceError (.plain "Error" "boom" "st") none 5 "st2"
      = mkAppError "AppError" "boom" none (some (.plain "Error" "boom" "st")) true 5 "st2" ∧
    enhanceError (mkValidationError "bad" none none 3 "s") none 9 "t"
      = mkValidationError "bad" none none 3 "s" :=
  ⟨(C8_enhanceError_idempotent (.plain "Error" "boom" "st") none none 5 5 "st2" "st2").2.1 rfl,
   (C8_enhanceError_idempotent (mkValidationError "bad" none none 3 "s") none none 9 9 "t" "t").1
      rfl⟩

/-- C10: each concrete error-kind constructor pins its `code`/`statusCode`
pair on the stored context, overwriting whatever the caller supplied, and
stamps `timestamp`; `InternalError` additionally sets `isOperational = false`
while every other kind leaves it `true`. -/
theorem C10_kind_constructors_pin_context (message : String) (ctx? : Option ErrorContext)
    (orig : Option JsErr) (now : Nat) (stack : String) :
    ((mkValidationError message ctx? orig now stack).contextOf.code = some "VALIDATION_ERROR"
      ∧ (mkValidationError message ctx? orig now stack).contextOf.statusCode = some 400
      ∧ (mkValidationError message ctx? orig now stack).contextOf.timestamp = some now
      ∧ (mkValidationError message ctx? orig now stack).isOperationalField = some true) ∧
    ((mkNotFoundError message ctx? orig now stack).contextOf.code = some "NOT_FOUND"
      ∧ (mkNotFoundError message ctx? orig now stack).contextOf.statusCode = some 404
      ∧ (mkNotFoundError message ctx? orig now stack).contextOf.timestamp = some now
      ∧ (mkNotFoundError message ctx? orig now stack).isOperationalField = some true) ∧
    ((mkUnauthorizedError message ctx? orig now stack).contextOf.code = some "UNAUTHORIZED"
      ∧ (mkUnauthorizedError message ctx? orig now stack).contextOf.statusCode = some 401
      ∧ (mkUnauthorizedError message ctx? orig now stack).contextOf.timestamp = some now
      ∧ (mkUnauthorizedError message ctx? orig now stack).isOperationalField = some true) ∧
    ((mkForbiddenError message ctx? orig now stack).contextOf.code = some "FORBIDDEN"
      ∧ (mkForbiddenError message ctx? orig now stack).contextOf.statusCode = some 403
      ∧ (mkForbiddenError message ctx? orig now stack).contextOf.timestamp = some now
      ∧ (mkForbiddenError message ctx? orig now stack).isOperationalField = some true) ∧
    ((mkConflictError message ctx? orig now stack).contextOf.code = some "CONFLICT"
      ∧ (mkConflictError message ctx? orig now stack).contextOf.statusCode = some 409
      ∧ (mkConflictError message ctx? orig now stack).contextOf.timestamp = some now
      ∧ (mkConflictError message ctx? orig now stack).isOperationalField = some true) ∧
    ((mkInternalError message ctx? orig now stack).contextOf.code = some "INTERNAL_ERROR"
      ∧ (mkInternalError message ctx? orig now stack).contextOf.statusCode = some 500
      ∧ (mkInternalError message ctx? orig now stack).contextOf.timestamp = some now
      ∧ (mkInternalError message ctx? orig now stack).isOperationalField = some false) ∧
    ((mkExternalServiceError message ctx? orig now stack).contextOf.code
        = some "EXTERNAL_SERVICE_ERROR"
      ∧ (mkExternalServiceError message ctx? orig now stack).contextOf.statusCode = some 502
      ∧ (mkExternalServiceError message ctx? orig now stack).contextOf.timestamp = some now
      ∧ (mkExternalServiceError message ctx? orig now stack).isOperationalField = some true) ∧
    ((mkTimeoutError message ctx? orig now stack).contextOf.code = some "TIMEOUT"
      ∧ (mkTimeoutError message ctx? orig now stack).contextOf.statusCode = some 408
      ∧ (mkTimeoutError message ctx? orig now stack).contextOf.timestamp = some now
      ∧ (mkTimeoutError message ctx? orig now stack).isOperationalField = some true) :=
  ⟨⟨rfl, rfl, rfl, rfl⟩, ⟨rfl, rfl, rfl, rfl⟩, ⟨rfl, rfl, rfl, rfl⟩, ⟨rfl, rfl, rfl, rfl⟩,
   ⟨rfl, rfl, rfl, rfl⟩, ⟨rfl, rfl, rfl, rfl⟩, ⟨rfl, rfl, rfl, rfl⟩, ⟨rfl, rfl, rfl, rfl⟩⟩

/-- C2 counterexample: a plain `Error` carries no `isOperational` flag, so
`isOperationalError` treats it as non-operational — but `logError` logs it at
the operational (`error`) severity, not the fatal one the claim requires. -/
theorem C2_plain_error_not_fatal :
    (JsErr.plain "Error" "boom" "st").isOperationalField = none ∧
    isOperationalError (.plain "Error" "boom" "st") = false ∧
    logErrorSeverity (.plain "Error" "boom" "st") ≠ .fatal := by
  refine ⟨rfl, rfl, ?_⟩
  simp [logErrorSeverity, JsErr.isOperationalField]

/-- C2 (amended): an error without the recoverability flag is treated as
non-operational by `isOperationalError`, but the logger gives it the
operational severity; the fatal severity is reserved for errors whose
`isOperational` is explicitly `false`. -/
theorem C2_flagless_logged_operational (e : JsErr) (h : e.isOperationalField = none) :
    isOperationalError e = false ∧
    logErrorSeverity e = .errorLevel ∧
    (logErrorSeverity e = .fatal ↔ e.isOperationalField = some false) := by
  refine ⟨?_, ?_, ?_⟩ <;> simp [isOperationalError, logErrorSeverity, h]

/-- C2 witness: the amended statement instantiated at a plain `Error`. -/
theorem C2_flagless_logged_operational_witness :
    isOperationalError (.plain "Error" "boom" "st") = false ∧
    logErrorSeverity (.plain "Error" "boom" "st") = .errorLevel ∧
    (logErrorSeverity (.plain "Error" "boom" "st") = .fatal ↔
      (JsErr.plain "Error" "boom" "st").isOperationalField = some false) :=
  C2_flagless_logged_operational (.plain "Error" "boom" "st") rfl

/-- C3 counterexample: an `InternalError` (`isRecoverable = false`) reaching
the filter in a production build is rendered with its own message
`"secret db failure"`, not the generic `"Internal server error"` the claim
requires (the status code 500 and fatal log severity are as claimed). -/
theorem C3_production_message_leak :
    (filterCatch (mkInternalError "secret db failure" none none 0 "trace")
        "/x" "GET" true false "t").map (fun o => (o.body.message, o.status, o.log.severity))
      = .ok ("secret db failure", 500, .fatal) ∧
    "secret db failure" ≠ "Internal server error" := by
  exact ⟨rfl, by decide⟩

/-- C3 (amended): the filter renders every `AppError` — recoverable or not,
production or not — verbatim: its own message, its context's status code
(defaulting to 500) and its metadata; no generic-message redaction of
non-recoverable failures happens in production. -/
theorem C3_appError_rendered_verbatim (name message : String) (ctx : ErrorContext)
    (orig : Option JsErr) (isOp : Bool) (stk url method now : String)
    (production : Bool) :
    (filterCatch (.appError name message ctx orig isOp stk) url method production false now).map
        (fun o => (o.body.message, o.status, o.body.context))
      = .ok (message, orFalsyNat ctx.statusCode 500,
          if (ctx.metadata.getD []).isEmpty then none else some (ctx.metadata.getD [])) :=
  rfl

/-- C4 counterexample: when the logging collaborator raises, the filter's
`catch` aborts before `response.status(...).json(...)` and no response is
produced — the raise is not swallowed, contrary to the claim. -/
theorem C4_logging_raise_prevents_response :
    filterCatch (.plain "Error" "boom" "st") "/x" "GET" false true "t" = .error () := rfl

/-- C4 (amended): the filter's logging call is unguarded — a raise from the
logging collaborator always escapes `catch` and suppresses the response, and
the canonical failure response is produced exactly when the logging call
returns normally. -/
theorem C4_response_iff_logger_ok (exc : JsErr) (url method : String)
    (production : Bool) (now : String) :
    filterCatch exc url method production true now = .error () ∧
    ∃ out, filterCatch exc url method production false now = .ok out :=
  ⟨rfl, ⟨_, rfl⟩⟩

/-- C7: whenever the filter produces a response, the failure envelope carries
the error's stack exactly when the build is non-production: `stack` is the
error's trace outside production and absent in production. -/
theorem C7_stack_iff_nonproduction (exc : JsErr) (url method now : String)
    (production : Bool) (out : FilterOutput)
    (h : filterCatch exc url method production false now = .ok out) :
    out.body.stack = (if production then none else some exc.stackOf) ∧
    (out.body.stack.isSome ↔ production = false) := by
  simp only [filterCatch, if_neg Bool.false_ne_true] at h
  cases h
  cases production <;> simp

/-- C7 witness: a plain error in a production build yields a response whose
envelope has no `stack`. -/
theorem C7_stack_iff_nonproduction_witness :
    (FilterOutput.mk ⟨.errorLevel, "/u", "GET", 500, true⟩ 500
        ⟨"INTERNAL_ERROR", "Internal server error", 500, "t", "/u", none, none⟩).body.stack
      = (if true then none else some (JsErr.stackOf (.plain "Error" "boom" "st"))) ∧
    ((FilterOutput.mk ⟨.errorLevel, "/u", "GET", 500, true⟩ 500
        ⟨"INTERNAL_ERROR", "Internal server error", 500, "t", "/u", none, none⟩).body.stack.isSome
      ↔ (true : Bool) = false) :=
  C7_stack_iff_nonproduction (.plain "Error" "boom" "st") "/u" "GET" "t" true
    (FilterOutput.mk ⟨.errorLevel, "/u", "GET", 500, true⟩ 500
      ⟨"INTERNAL_ERROR", "Internal server error", 500, "t", "/u", none, none⟩) rfl

/-- No JavaScript value is a two-element array having itself as first
element. -/
theorem JSVal.ne_arrv_self (a b : JSVal) : a ≠ JSVal.arrv [a, b] := by
  intro h
  have hs := congrArg sizeOf h
  simp [JSVal.arrv.sizeOf_spec, List.cons.sizeOf_spec, List.nil.sizeOf_spec] at hs
  omega

/-- C5: on a two-slot tuple the interceptor throws the error slot when it is
non-null and otherwise returns the canonical success envelope around the data
slot; an object already carrying a `success` key passes through unchanged. -/
theorem C5_intercept_outcomes (d e : JSVal) (now : String)
    (fields : List (String × JSVal)) (h : hasSuccessKey (.objv fields) = true) :
    (isNull e = false → intercept (.arrv [d, e]) now = .error e) ∧
    intercept (.arrv [d, .nullv]) now = .ok (successEnvelope d now) ∧
    intercept (.objv fields) now = .ok (.objv fields) := by
  refine ⟨?_, rfl, ?_⟩
  · intro he
    simp [intercept, truthy, typeofIsObject, hasSuccessKey, he]
  · simp [intercept, truthy, typeofIsObject, h]

/-- C5 witness: a failure tuple is re-thrown, a success tuple is wrapped, and
a manually built envelope passes through. -/
theorem C5_intercept_outcomes_witness :
    intercept (.arrv [.numv 1, .strv "E"]) "t" = .error (.strv "E") ∧
    intercept (.arrv [.numv 1, .nullv]) "t" = .ok (successEnvelope (.numv 1) "t") ∧
    intercept (.objv [("success", .boolv true)]) "t" = .ok (.objv [("success", .boolv true)]) :=
  ⟨(C5_intercept_outcomes (.numv 1) (.strv "E") "t" [("success", .boolv true)] rfl).1 rfl,
   (C5_intercept_outcomes (.numv 1) (.strv "E") "t" [("success", .boolv true)] rfl).2.1,
   (C5_intercept_outcomes (.numv 1) (.strv "E") "t" [("success", .boolv true)] rfl).2.2⟩

/-- C9: every two-element array — whatever it holds — is interpreted as a
Result tuple: a non-null second element is thrown, otherwise only the first
element is wrapped as the success payload; in particular the result is never
the raw-data wrapping of the whole array. -/
theorem C9_two_element_arrays_are_tuples (a b : JSVal) (now : String) :
    intercept (.arrv [a, b]) now
      = (if isNull b then .ok (successEnvelope a now) else .error b) ∧
    intercept (.arrv [a, b]) now ≠ .ok (successEnvelope (.arrv [a, b]) now) := by
  constructor
  · simp [intercept, truthy, typeofIsObject, hasSuccessKey]
  · intro h
    simp only [intercept, truthy, typeofIsObject, hasSuccessKey, Bool.true_and,
      Bool.and_false] at h
    by_cases hb : isNull b = true
    · rw [if_pos hb] at h
      simp [successEnvelope] at h
      exact JSVal.ne_arrv_self a b h
    · rw [if_neg hb] at h
      exact Except.noConfusion h

/-- C9 witness: the characterization instantiated at the tuple `[5, null]`. -/
theorem C9_two_element_arrays_are_tuples_witness :
    intercept (.arrv [.numv 5, .nullv]) "t"
      = (if isNull .nullv then .ok (successEnvelope (.numv 5) "t") else .error .nullv) ∧
    intercept (.arrv [.numv 5, .nullv]) "t"
      ≠ .ok (successEnvelope (.arrv [.numv 5, .nullv]) "t") :=
  C9_two_element_arrays_are_tuples (.numv 5) .nullv "t"

/-- C1 witness: the amended predicate facts instantiated at `Ok(3)` and
`Err(9)`. -/
theorem C1_success_failure_predicates_witness :
    isSuccess (Ok (some 3) : Result Nat Nat) = true ∧
    hasError (Ok (some 3) : Result Nat Nat) = false ∧
    hasError (Err (some 9) : Result Nat Nat) = true ∧
    isSuccess (Err (some 9) : Result Nat Nat) = false ∧
    ¬(isSuccess (Ok (some 3) : Result Nat Nat) = true ∧
      hasError (Ok (some 3) : Result Nat Nat) = true) :=
  C1_success_failure_predicates 3 9 (Ok (some 3))

end Nogode
